import Mathlib

/-!
Shallow embedding of the mdps-tropess-deploy command-line tools:
the identifier formatter, catalog-query filter builder and response
validation (`tropess_deploy/data/tool.py`), the report/summary builder
(`tropess_deploy/cmd/query_data.py`), the data-services registration
commands (`tropess_deploy/cmd/init_data_services.py`) and the workflow
trigger (`tropess_deploy/cmd/trigger_app.py`).

External collaborators (the unity-sds-client SDK, the Airflow REST API,
S3, the `dateparser` library, the `tropess_product_spec` configuration
package) are modelled as explicit parameters: backend responses, HTTP
status maps, file-existence predicates and date-parsing functions are
inputs to the embedded functions, and the network calls the code would
issue are returned as explicit traces.
-/

set_option autoImplicit false

namespace TropessDeploy

/-! ## Data model: STAC features and results -/

/-- First-match lookup in an association list, modelling Python `dict`
access (`name in d` / `d[name]`) for the string-valued STAC property
maps used by this repository. -/
def lookupProp : List (String × String) → String → Option String
  | [], _ => none
  | (k, v) :: rest, name => if k = name then some v else lookupProp rest name

/-- A STAC feature as read by this repository: an `id`, a `properties`
mapping and an `assets` mapping (only the asset names are used). -/
structure Feature where
  id : String
  properties : List (String × String)
  assets : List String
deriving Repr, DecidableEq

/-- A STAC query result as returned by the backend: a mapping that may or
may not contain the `features` key.  `features? = none` models a response
without the key; `features? = some l` models `features: l`. -/
structure StacResult where
  features? : Option (List Feature)
deriving Repr, DecidableEq

/-! ## `DataTool.mdps_collection_ids` (tropess_deploy/data/tool.py) -/

/-- `DataTool.mdps_collection_ids`: loop over the TROPESS short names
appending `URN:NASA:UNITY:{project}:{venue}:` + `{short_name}___{version}`
to the output list. -/
def mdps_collection_ids (mdps_project mdps_venue : String)
    (tropess_short_names : List String) (collection_version : String) : List String :=
  tropess_short_names.foldl
    (fun our_collection_ids short_name =>
      our_collection_ids ++
        ["URN:NASA:UNITY:" ++ mdps_project ++ ":" ++ mdps_venue ++ ":" ++
          (short_name ++ "___" ++ collection_version)])
    []

/-! ## `DataTool._find_sensor_set` (tropess_deploy/data/tool.py) -/

/-- A sensor set from the external `tropess_product_spec` schema; only the
fields this repository reads are modelled. -/
structure SensorSet where
  keyword : String
  short_name : String
  «alias» : String
deriving Repr, DecidableEq

/-- A sensor-set mapping entry of a collection group
(`collection_group.sensor_set_mappings[...]`); the code only reads its
`sensor_set` field. -/
structure SensorSetMapping where
  sensor_set : SensorSet
deriving Repr, DecidableEq

/-- A collection group from the external `tropess_product_spec` schema;
only the fields this repository reads are modelled. -/
structure CollectionGroup where
  keyword : String
  short_name : String
  sensor_set_mappings : List (String × SensorSetMapping)
deriving Repr, DecidableEq

/-- The duck-typed `sensor_set_query` argument of
`DataTool._find_sensor_set`: Python `None`, an already-resolved
`SensorSet` object, or a query string. -/
inductive SensorSetQuery where
  | null : SensorSetQuery
  | obj : SensorSet → SensorSetQuery
  | str : String → SensorSetQuery
deriving Repr, DecidableEq

/-- First-match lookup in an association list of sensor-set mappings,
modelling `dict.get(key, None)`. -/
def lookupMapping : List (String × SensorSetMapping) → String → Option SensorSetMapping
  | [], _ => none
  | (k, v) :: rest, name => if k = name then some v else lookupMapping rest name

/-- First-match lookup in the global sensor-set table
(`tps_config.sensor_sets.get(key, None)`). -/
def lookupSensorSet : List (String × SensorSet) → String → Option SensorSet
  | [], _ => none
  | (k, v) :: rest, name => if k = name then some v else lookupSensorSet rest name

/-- `DataTool._find_sensor_set`: `None` passes through, a `SensorSet`
object is returned unchanged, and a string is resolved first against the
global table `tps_config.sensor_sets` and then against the collection
group's `sensor_set_mappings`; an unresolvable string raises. -/
def find_sensor_set (sensor_sets : List (String × SensorSet))
    (collection_group_obj : CollectionGroup) (sensor_set_query : SensorSetQuery) :
    Except String (Option SensorSet) :=
  match sensor_set_query with
  | SensorSetQuery.null => Except.ok none
  | SensorSetQuery.obj s => Except.ok (some s)
  | SensorSetQuery.str q =>
    let sensor_set_obj := lookupSensorSet sensor_sets q
    let sensor_set_obj :=
      match sensor_set_obj with
      | none =>
        match lookupMapping collection_group_obj.sensor_set_mappings q with
        | some sensor_set_mapping => some sensor_set_mapping.sensor_set
        | none => none
      | some s => some s
    match sensor_set_obj with
    | none => Except.error ("Could not determine sensor set from string: \"" ++ q ++ "\"")
    | some s => Except.ok (some s)

/-! ## `DataTool.query_data_catalog` (tropess_deploy/data/tool.py)

The `dateparser.parse(d).strftime("%Y-%m-%d")` pipeline over the external
`dateparser` library is modelled as a parameter
`parse : String → Option String`, returning the normalized `YYYY-MM-DD`
string or `none` when `dateparser.parse` returns `None` (in which case the
Python code hits an `AttributeError` on `.strftime`). -/

/-- Filter construction of `DataTool.query_data_catalog`: a `date_range`
pair is checked first and builds the two-sided filter; otherwise a single
`processing_date` builds the equality filter; otherwise no filter. -/
def build_query_filter (parse : String → Option String)
    (processing_date : Option String) (date_range : Option (String × String)) :
    Except String (Option String) :=
  match date_range with
  | some (d1, d2) =>
    match parse d1, parse d2 with
    | some start_date, some stop_date =>
      Except.ok (some ("processing_datetime>='" ++ start_date ++
        "' and processing_datetime<='" ++ stop_date ++ "'"))
    | _, _ => Except.error ("Invalid date range values: " ++ d1 ++ " " ++ d2)
  | none =>
    match processing_date with
    | some d =>
      match parse d with
      | some pd => Except.ok (some ("processing_datetime='" ++ pd ++ "'"))
      | none => Except.error ("AttributeError: dateparser returned None for " ++ d)
    | none => Except.ok none

/-- Response validation of `DataTool.query_data_catalog`: raise when the
backend result lacks the `features` key, else pass the result through. -/
def validate_query_result (stac_query_result : StacResult) : Except String StacResult :=
  if stac_query_result.features?.isSome then Except.ok stac_query_result
  else Except.error "Error querying data catalog"

/-- `DataTool.query_data_catalog`: build the filter from the date
arguments, invoke the backend (`data_manager.get_collection_data`,
modelled as a function from the filter to the raw response) and validate
the response shape. -/
def query_data_catalog (parse : String → Option String)
    (backend : Option String → StacResult)
    (processing_date : Option String) (date_range : Option (String × String)) :
    Except String StacResult :=
  match build_query_filter parse processing_date date_range with
  | Except.error e => Except.error e
  | Except.ok query_filter => validate_query_result (backend query_filter)

/-! ## `DataQuery` (tropess_deploy/cmd/query_data.py) -/

/-- `DataQuery.feat_is_archived`:
`'archive_status' in feat['properties'] and
 feat['properties']['archive_status'] == "cnm_r_success"`. -/
def feat_is_archived (feat : Feature) : Bool :=
  match lookupProp feat.properties "archive_status" with
  | some v => v == "cnm_r_success"
  | none => false

/-- Loop body of `DataQuery.get_constant_property`: fold over the features
carrying the first value seen (`prop_value`), skipping features that do
not define the property and raising on the first one whose value differs
from the value seen so far. -/
def get_constant_property_loop (prop_name : String) :
    List Feature → Option String → Except String (Option String)
  | [], prop_value => Except.ok prop_value
  | feat :: rest, prop_value =>
    match lookupProp feat.properties prop_name with
    | none => get_constant_property_loop prop_name rest prop_value
    | some curr_value =>
      match prop_value with
      | some pv =>
        if pv ≠ curr_value then
          Except.error (prop_name ++ " does not have a consistent value " ++ curr_value ++
            " for " ++ feat.id ++ ", expected " ++ pv)
        else
          get_constant_property_loop prop_name rest (some curr_value)
      | none => get_constant_property_loop prop_name rest (some curr_value)

/-- `DataQuery.get_constant_property`: returns `None` when the result has
no `features` key at all, otherwise scans the features for a single shared
value of `properties[prop_name]`; raises when `required` and no feature
defines the property. -/
def get_constant_property (stac : StacResult) (prop_name : String) (required : Bool) :
    Except String (Option String) :=
  match stac.features? with
  | none => Except.ok none
  | some feats =>
    match get_constant_property_loop prop_name feats none with
    | Except.error e => Except.error e
    | Except.ok none =>
      if required then Except.error ("No datasets define the " ++ prop_name ++ " metadata")
      else Except.ok none
    | Except.ok (some v) => Except.ok (some v)

/-! ## Delete-message emission (`DataQuery.write_delete_message`) -/

/-- A minimal JSON value type, enough to express the delete-request
documents serialized by `write_delete_message`. -/
inductive Json where
  | str : String → Json
  | arr : List Json → Json
  | obj : List (String × Json) → Json
deriving Repr

/-- Top-level keys of a JSON object, in insertion order. -/
def topLevelKeys : Json → List String
  | Json.obj fields => fields.map Prod.fst
  | _ => []

/-- `pat.dropMatch? s`: when `pat` is a leading segment of `s`, the rest of
`s` after it, else `none`.  Helper for Python `str.replace`. -/
def dropMatch? : List Char → List Char → Option (List Char)
  | [], s => some s
  | _ :: _, [] => none
  | p :: ps, c :: cs => if p = c then dropMatch? ps cs else none

/-- Fueled worker for Python `s.replace(pat, "")`: delete every occurrence
of `pat`, scanning left to right.  The fuel is the length of `s`, which
bounds the number of scan steps. -/
def erase_occurrences_aux (pat : List Char) : Nat → List Char → List Char
  | _, [] => []
  | 0, s => s
  | fuel + 1, c :: cs =>
    match dropMatch? pat (c :: cs) with
    | some rest => erase_occurrences_aux pat fuel rest
    | none => c :: erase_occurrences_aux pat fuel cs

/-- Python `s.replace(pat, "")`: remove every occurrence of `pat` from
`s`. -/
def erase_occurrences (s pat : String) : String :=
  String.mk (erase_occurrences_aux pat.data s.data.length s.data)

/-- Python `s.lstrip(":")`: strip leading colons. -/
def lstrip_colon (s : String) : String :=
  String.mk (s.data.dropWhile (fun c => c = ':'))

/-- Product id used in `write_delete_message` (and in the display code):
`feat['id'].replace(collection_id, "").lstrip(":")`. -/
def product_id_of (collection_id feat_id : String) : String :=
  lstrip_colon (erase_occurrences feat_id collection_id)

/-- The delete-request document literal of `DataQuery.write_delete_message`,
with its fields in source order.  Note the `"identifier "` key is written
with a trailing space in the source dict literal. -/
def delete_message_doc (product_id delete_message_id short_name collection_version
    current_time_string : String) : Json :=
  Json.obj [
    ("product", Json.obj [
      ("files", Json.arr []),
      ("name", Json.str product_id)]),
    ("identifier ", Json.str delete_message_id),
    ("collection", Json.obj [
      ("name", Json.str short_name),
      ("version", Json.str collection_version)]),
    ("provider", Json.str "tropess_cloud"),
    ("version", Json.str "1.3"),
    ("submissionTime", Json.str current_time_string)]

/-- Inner loop of `write_delete_message` for one `(collection_id, stac)`
pair: empty feature lists are skipped; otherwise the shared `short_name`
property is extracted (required) and one `(filename, document)` pair is
produced per feature, the filename being `delete-<product_id>-<timestamp>.json`. -/
def write_delete_message_one (collection_id : String) (feats : List Feature)
    (collection_version id_time_string current_time_string : String) :
    Except String (List (String × Json)) :=
  if feats.length = 0 then Except.ok []
  else
    match get_constant_property (StacResult.mk (some feats)) "short_name" true with
    | Except.error e => Except.error e
    | Except.ok short_name_opt =>
      let short_name := short_name_opt.getD ""
      Except.ok (feats.map (fun feat =>
        let product_id := product_id_of collection_id feat.id
        let delete_message_id := "delete-" ++ product_id ++ "-" ++ id_time_string
        (delete_message_id ++ ".json",
          delete_message_doc product_id delete_message_id short_name
            collection_version current_time_string)))

/-- `DataQuery.write_delete_message`: iterate over the zipped collection
ids and STAC feature lists, emitting one delete-message file per feature
of each non-empty result; the two timestamp strings are taken once before
the loop (`datetime.now()` formatted two ways) and are parameters here.
Returns the list of `(filename, document)` pairs the code writes. -/
def write_delete_message (data_collection_ids : List String)
    (stac_catalogs : List (List Feature))
    (collection_version current_time_string id_time_string : String) :
    Except String (List (String × Json)) :=
  (data_collection_ids.zip stac_catalogs).foldl
    (fun acc p =>
      match acc with
      | Except.error e => Except.error e
      | Except.ok out =>
        match write_delete_message_one p.1 p.2 collection_version
            id_time_string current_time_string with
        | Except.error e => Except.error e
        | Except.ok msgs => Except.ok (out ++ msgs))
    (Except.ok [])

/-! ## Network mutation traces (tropess_deploy/cmd/init_data_services.py,
tropess_deploy/cmd/trigger_app.py)

The commands are modelled as functions from their arguments to the list of
mutating network calls they issue, in order.  Read-only calls (collection
listing, archive-config GET, custom-metadata GET) do not mutate platform
state and are not part of these traces. -/

/-- A mutating network call one of the commands can issue. -/
inductive MutationCall where
  | collectionCreate : String → MutationCall
  | customMetadataDefine : MutationCall
  | archivePut : String → MutationCall
  | archiveDelete : String → MutationCall
  | workflowPost : String → MutationCall
deriving Repr, DecidableEq

/-- `TropessDataInit.register_mdps_collection_ids`: one
`create_collection` call per MDPS collection id. -/
def register_mdps_collection_ids_calls (mdps_collection_ids : List String) :
    List MutationCall :=
  mdps_collection_ids.map MutationCall.collectionCreate

/-- `TropessDataInit.register_collection_ids`: registers the generated
collection ids only when `do_update` is set, else only logs them (the
optional `check_update` pass issues read-only queries). -/
def register_collection_ids_calls (do_update : Bool)
    (mdps_collection_ids : List String) : List MutationCall :=
  if do_update then register_mdps_collection_ids_calls mdps_collection_ids else []

/-- `TropessDataInit.define_custom_metadata`: queries existing metadata
(read-only), merges in `CUSTOM_METADATA_DEF`, and commits the definition
only when `do_update` is set. -/
def define_custom_metadata_calls (do_update : Bool) : List MutationCall :=
  if do_update then [MutationCall.customMetadataDefine] else []

/-- `TropessDataInit.add_archive_config`: PUTs the archive configuration
for the collection id when `do_update` is set, else logs the would-be
configuration and returns it. -/
def add_archive_config_calls (mdps_collection_id : String) (do_update : Bool) :
    List MutationCall :=
  if do_update then [MutationCall.archivePut mdps_collection_id] else []

/-- `TropessDataInit.delete_archive_config`: unconditionally issues the
archive-config DELETE for the collection id (there is no commit-flag guard
in this method). -/
def delete_archive_config_calls (mdps_collection_id : String) : List MutationCall :=
  [MutationCall.archiveDelete mdps_collection_id]

/-- `TropessDataInit.register_daac_archiving`: when `delete` is set, first
deletes the archive config of every (daac id, mdps id) pair — regardless
of `do_update` — then runs `add_archive_config` (guarded by `do_update`)
for every pair; the final per-id `get_archive_config` display loop is
read-only. -/
def register_daac_archiving_calls (tropess_short_names mdps_collection_ids : List String)
    (do_update delete : Bool) : List MutationCall :=
  (if delete then
    ((tropess_short_names.zip mdps_collection_ids).map
      (fun p => delete_archive_config_calls p.2)).flatten
   else []) ++
  ((tropess_short_names.zip mdps_collection_ids).map
    (fun p => add_archive_config_calls p.2 do_update)).flatten

/-! ## `TropessDAGRunner.trigger_dag` (tropess_deploy/cmd/trigger_app.py) -/

def REQUEST_INSTANCE_TYPE : String := "t3.medium"

def REQUEST_STORAGE : String := "10Gi"

/-- The `conf` part of the Airflow dag-run request body built by
`trigger_dag`; `process_args` holds the `json.dumps` serialization of the
process arguments, modelled as an opaque string. -/
structure DagRunConf where
  process_args : String
  process_workflow : String
  stac_json : String
  request_instance_type : String
  request_storage : String
  use_ecr : Bool
  unity_stac_auth_type : Bool
deriving Repr, DecidableEq

/-- The Airflow dag-run request body built by `trigger_dag`. -/
structure DagRunRequest where
  dag_run_id : String
  logical_date : String
  conf : DagRunConf
deriving Repr, DecidableEq

/-- `TropessDAGRunner.trigger_dag`: always resolves the trigger URL and
builds and logs the request body; POSTs it only when `trigger` is set.
The URL resolution and `logical_date` timestamp are parameters; the result
is the built request together with the mutation trace. -/
def trigger_dag (trigger_url run_id logical_date process_args_json
    process_workflow stac_json : String) (use_ecr use_stac_auth trigger : Bool) :
    DagRunRequest × List MutationCall :=
  let data : DagRunRequest :=
    { dag_run_id := run_id
      logical_date := logical_date
      conf :=
        { process_args := process_args_json
          process_workflow := process_workflow
          stac_json := stac_json
          request_instance_type := REQUEST_INSTANCE_TYPE
          request_storage := REQUEST_STORAGE
          use_ecr := use_ecr
          unity_stac_auth_type := use_stac_auth } }
  (data, if trigger then [MutationCall.workflowPost trigger_url] else [])

/-! ## `TropessDAGRunner.data_ingest` network-event trace
(tropess_deploy/cmd/trigger_app.py)

For the ordering claims about `data_ingest`, every network call — read or
write — is recorded: the S3 `list_objects` of `_verify_s3_path`, the HTTP
GETs of `_process_workflow_url` / `_verify_file_url`, and the Airflow POST
of `trigger_dag`.  The external world (the S3 listing response, local file
existence, HTTP status per URL, the docker version parsed out of the local
CWL file) is passed in as parameters. -/

/-- A network call issued during `data_ingest`, in issue order. -/
inductive NetworkEvent where
  | s3ListObjects : String → NetworkEvent
  | httpGet : String → NetworkEvent
  | airflowPost : String → NetworkEvent
deriving Repr, DecidableEq

/-- Whether a string ends in `/` (Python `s.endswith('/')` for the
one-character suffix used here). -/
def ends_with_slash (s : String) : Bool :=
  match s.data.getLast? with
  | some c => c = '/'
  | none => false

/-- Whether a string starts with `/`. -/
def starts_with_slash (s : String) : Bool :=
  match s.data with
  | c :: _ => c = '/'
  | [] => false

/-- `os.path.join(a, b)` for the URL/path strings used here: `b` replaces
everything when absolute, otherwise it is appended with a single slash. -/
def path_join (a b : String) : String :=
  if starts_with_slash b then b
  else if ends_with_slash a then a ++ b
  else a ++ "/" ++ b

/-- Python `s.rstrip("/")`. -/
def rstrip_slash (s : String) : String :=
  String.mk (s.data.reverse.dropWhile (fun c => c = '/')).reverse

/-- Characters after the last `/` (worker for `os.path.basename`). -/
def basename_chars : List Char → List Char → List Char
  | acc, [] => acc.reverse
  | acc, c :: cs => if c = '/' then basename_chars [] cs else basename_chars (c :: acc) cs

/-- `os.path.basename`: the part after the last `/`. -/
def path_basename (s : String) : String :=
  String.mk (basename_chars [] s.data)

/-- The S3 `list_objects` response fields `_verify_s3_path` reads:
whether `Contents` is present, and the `CommonPrefixes` prefix values. -/
structure S3Response where
  hasContents : Bool
  commonPrefixes : List String
deriving Repr, DecidableEq

def EXPECTED_INGEST_SUBDIRS : List String := ["L2_Products", "L2_Products_Lite"]

/-- `TropessDAGRunner._verify_s3_path`: append a trailing slash to the
data path, join it onto the base path, list the S3 location (one network
call), then check `Contents` is present, `CommonPrefixes` is non-empty,
and every expected ingest sub-directory appears among the prefix
basenames. -/
def verify_s3_path (s3resp : S3Response) (base_path data_path : String) :
    List NetworkEvent × Except String Unit :=
  let data_path := if ends_with_slash data_path then data_path else data_path ++ "/"
  let url_full_path := path_join base_path data_path
  let result : Except String Unit :=
    if !s3resp.hasContents then
      Except.error ("Could not find anything at S3 URL: " ++ url_full_path)
    else if s3resp.commonPrefixes.length = 0 then
      Except.error ("No files or directories found at " ++ url_full_path)
    else
      let path_sub_items := s3resp.commonPrefixes.map (fun p => path_basename (rstrip_slash p))
      match EXPECTED_INGEST_SUBDIRS.find? (fun d => !path_sub_items.contains d) with
      | some expected_dir =>
        Except.error ("Did not find " ++ expected_dir ++ " under " ++ url_full_path)
      | none => Except.ok ()
  ([NetworkEvent.s3ListObjects url_full_path], result)

/-- `TropessDAGRunner._verify_file_url`: a GET of the URL; non-200 status
raises. -/
def verify_file_url (httpStatus : String → Nat) (url : String) :
    List NetworkEvent × Except String Unit :=
  ([NetworkEvent.httpGet url],
    if httpStatus url ≠ 200 then Except.error ("Invalid file url: " ++ url)
    else Except.ok ())

def DEPLOY_FILES_BASE_URL : String :=
  "https://raw.githubusercontent.com/unity-sds/mdps-tropess-deploy/refs/heads/main/"

/-- `CWL_WORKFLOW_FILENAME.format(...)`:
`{subcommand_dir}/process-{project}-{venue}.cwl`. -/
def cwl_workflow_path (subcommand_dir project venue : String) : String :=
  subcommand_dir ++ "/process-" ++ project ++ "-" ++ venue ++ ".cwl"

/-- `TropessDAGRunner._process_workflow_url`: build the per-project/venue
CWL filename, fail if the local copy does not exist (before any HTTP
call), read the docker version out of the local file, then GET the
published URL (inline check plus `_verify_file_url`, two GETs) and return
the URL and docker version. -/
def process_workflow_url_fn (fileExists : String → Bool) (httpStatus : String → Nat)
    (extract_cwl_docker_version : String → String)
    (deploy_base_dir project venue subcommand_dir : String) :
    List NetworkEvent × Except String (String × String) :=
  let process_workflow_filename := cwl_workflow_path subcommand_dir project venue
  let cwl_workflow_filename := path_join deploy_base_dir process_workflow_filename
  if !fileExists cwl_workflow_filename then
    ([], Except.error ("Could not find process CWL file: " ++ process_workflow_filename))
  else
    let docker_version := extract_cwl_docker_version cwl_workflow_filename
    let process_workflow_url := path_join DEPLOY_FILES_BASE_URL process_workflow_filename
    if httpStatus process_workflow_url ≠ 200 then
      ([NetworkEvent.httpGet process_workflow_url],
        Except.error ("Invalid process CWL url: " ++ process_workflow_url))
    else
      match verify_file_url httpStatus process_workflow_url with
      | (ev, Except.error e) =>
        (NetworkEvent.httpGet process_workflow_url :: ev, Except.error e)
      | (ev, Except.ok _) =>
        (NetworkEvent.httpGet process_workflow_url :: ev,
          Except.ok (process_workflow_url, docker_version))

/-- Python `s.replace("/", "-")` used for the ingest-path part of the
run id. -/
def slashes_to_dashes (s : String) : String :=
  String.mk (s.data.map (fun c => if c = '/' then '-' else c))

/-- `TropessDAGRunner.data_ingest`: verify the S3 input location (first
network call), then resolve the workflow CWL URL (fails on a missing
local file before its GETs), verify the static `stage_in.json` URL, and
finally hand off to `trigger_dag`, which POSTs only when `trigger` is
set.  Returns the full network-event trace and, on success, the run id
and the `process_args` payload. -/
def data_ingest (s3resp : S3Response) (fileExists : String → Bool)
    (httpStatus : String → Nat) (extract_cwl_docker_version : String → String)
    (trigger_url deploy_base_dir project venue : String)
    (input_data_ingest_path collection_group_keyword input_data_base_path
      collection_version : String) (trigger : Bool) :
    List NetworkEvent × Except String (String × List (String × String)) :=
  match verify_s3_path s3resp input_data_base_path input_data_ingest_path with
  | (ev1, Except.error e) => (ev1, Except.error e)
  | (ev1, Except.ok _) =>
    match process_workflow_url_fn fileExists httpStatus extract_cwl_docker_version
        deploy_base_dir project venue "mdps-muses-data-ingest" with
    | (ev2, Except.error e) => (ev1 ++ ev2, Except.error e)
    | (ev2, Except.ok (_process_workflow_url, docker_version)) =>
      let stac_json_url :=
        path_join (path_join DEPLOY_FILES_BASE_URL "mdps-muses-data-ingest") "stage_in.json"
      match verify_file_url httpStatus stac_json_url with
      | (ev3, Except.error e) => (ev1 ++ ev2 ++ ev3, Except.error e)
      | (ev3, Except.ok _) =>
        let process_args := [
          ("input_data_ingest_path", input_data_ingest_path),
          ("collection_group_keyword", collection_group_keyword),
          ("input_data_base_path", input_data_base_path),
          ("collection_version", collection_version)]
        let run_id := "TROPESS-data_ingest_" ++ docker_version ++ "-" ++
          collection_group_keyword ++ ":" ++ slashes_to_dashes input_data_ingest_path
        let ev4 := if trigger then [NetworkEvent.airflowPost trigger_url] else []
        (ev1 ++ ev2 ++ ev3 ++ ev4, Except.ok (run_id, process_args))

/-! ## Concrete date normalizer for witnesses

A concrete instance of the abstract date-parser parameter, agreeing with
the `dateparser.parse(d).strftime("%Y-%m-%d")` pipeline on inputs that are
already in `YYYY-MM-DD` form (where the pipeline is the identity). -/

/-- Shape check for a ten-character `YYYY-MM-DD` string. -/
def iso_shape : List Char → Bool
  | [y1, y2, y3, y4, '-', m1, m2, '-', d1, d2] =>
    [y1, y2, y3, y4, m1, m2, d1, d2].all Char.isDigit
  | _ => false

/-- Identity date normalizer on `YYYY-MM-DD` inputs, `none` elsewhere. -/
def iso_parse (s : String) : Option String :=
  if iso_shape s.data then some s else none

/-! ## Helper lemmas -/

theorem flatten_map_singleton {α β : Type} (f : α → β) (l : List α) :
    (l.map (fun x => [f x])).flatten = l.map f := by
  induction l with
  | nil => rfl
  | cons x xs ih => simp [ih]

theorem flatten_map_nil {α β : Type} (l : List α) :
    (l.map (fun _ => ([] : List β))).flatten = [] := by
  induction l with
  | nil => rfl
  | cons x xs ih => simp [ih]

theorem foldl_append_singleton {α β : Type} (f : α → β) (l : List α) (init : List β) :
    l.foldl (fun acc x => acc ++ [f x]) init = init ++ l.map f := by
  induction l generalizing init with
  | nil => simp
  | cons x xs ih => simp [ih]

/-- Features whose properties do not define the scanned name are
skipped by the `get_constant_property` loop. -/
theorem get_constant_property_loop_skip (prop_name : String) :
    ∀ (feats : List Feature) (acc : Option String),
      (∀ f ∈ feats, lookupProp f.properties prop_name = none) →
      get_constant_property_loop prop_name feats acc = Except.ok acc := by
  intro feats
  induction feats with
  | nil => intro acc _; rfl
  | cons f rest ih =>
    intro acc h
    have hf := h f (by simp)
    simp only [get_constant_property_loop, hf]
    exact ih acc (fun g hg => h g (by simp [hg]))

/-- A block of features all agreeing with the carried value leaves the
`get_constant_property` loop state unchanged. -/
theorem get_constant_property_loop_agree (prop_name v : String) :
    ∀ (pre rest : List Feature),
      (∀ f ∈ pre, lookupProp f.properties prop_name = none ∨
        lookupProp f.properties prop_name = some v) →
      get_constant_property_loop prop_name (pre ++ rest) (some v) =
        get_constant_property_loop prop_name rest (some v) := by
  intro pre
  induction pre with
  | nil => intro rest _; rfl
  | cons f pre' ih =>
    intro rest h
    rcases h f (by simp) with hf | hf
    · simp only [List.cons_append, get_constant_property_loop, hf]
      exact ih rest (fun g hg => h g (by simp [hg]))
    · simp only [List.cons_append, get_constant_property_loop, hf]
      simp only [ne_eq, not_true_eq_false, if_neg, reduceIte]
      exact ih rest (fun g hg => h g (by simp [hg]))

/-- Once some feature in an agreeing block defines the property, the
`get_constant_property` loop continues with that value as its state. -/
theorem get_constant_property_loop_start (prop_name v : String) :
    ∀ (pre rest : List Feature),
      (∀ f ∈ pre, lookupProp f.properties prop_name = none ∨
        lookupProp f.properties prop_name = some v) →
      (∃ f ∈ pre, lookupProp f.properties prop_name = some v) →
      get_constant_property_loop prop_name (pre ++ rest) none =
        get_constant_property_loop prop_name rest (some v) := by
  intro pre
  induction pre with
  | nil => intro rest _ hex; simp at hex
  | cons f pre' ih =>
    intro rest h hex
    rcases hf : lookupProp f.properties prop_name with _ | w
    · simp only [List.cons_append, get_constant_property_loop, hf]
      apply ih rest (fun g hg => h g (by simp [hg]))
      rcases hex with ⟨g, hg, hgv⟩
      rcases (by simpa using hg : g = f ∨ g ∈ pre') with rfl | hg'
      · rw [hf] at hgv; cases hgv
      · exact ⟨g, hg', hgv⟩
    · have hw : w = v := by
        rcases h f (by simp) with h' | h'
        · rw [hf] at h'; cases h'
        · rw [hf] at h'; injection h'
      subst hw
      simp only [List.cons_append, get_constant_property_loop, hf]
      exact get_constant_property_loop_agree prop_name w pre' rest
        (fun g hg => h g (by simp [hg]))

/-! ## Claim theorems -/

/-- C2: every generated MDPS collection identifier is exactly
`URN:NASA:UNITY:{project}:{venue}:{short_name}___{version}` with the
inputs embedded verbatim, and the output has one identifier per input
short name, in order. -/
theorem mdps_collection_ids_template (mdps_project mdps_venue collection_version : String)
    (tropess_short_names : List String) :
    mdps_collection_ids mdps_project mdps_venue tropess_short_names collection_version =
      tropess_short_names.map (fun short_name =>
        "URN:NASA:UNITY:" ++ mdps_project ++ ":" ++ mdps_venue ++ ":" ++
          short_name ++ "___" ++ collection_version) := by
  unfold mdps_collection_ids
  rw [foldl_append_singleton]
  simp only [List.nil_append]
  apply List.map_congr_left
  intro s _
  apply String.ext
  simp [String.data_append, List.append_assoc]

/-- C3: the catalog-query response validation errors exactly when the
backend response lacks the `features` key; a response with an empty
`features` list is returned unchanged as a valid result. -/
theorem catalog_query_error_iff_features_missing :
    (∀ resp : StacResult, (validate_query_result resp).isOk = resp.features?.isSome) ∧
    validate_query_result (StacResult.mk (some [])) =
      Except.ok (StacResult.mk (some [])) := by
  constructor
  · intro resp
    unfold validate_query_result
    cases h : resp.features? <;> simp [h, Except.isOk, Except.toBool]
  · rfl

/-- C9: a feature is archived exactly when its properties bind
`archive_status` to the exact string `cnm_r_success`. -/
theorem feat_is_archived_iff (feat : Feature) :
    feat_is_archived feat = true ↔
      lookupProp feat.properties "archive_status" = some "cnm_r_success" := by
  unfold feat_is_archived
  cases h : lookupProp feat.properties "archive_status" with
  | none => simp
  | some v => simp

/-- C10: supplying both `processing_date` and `date_range` raises no
error and behaves exactly as supplying only `date_range` (the
`processing_date` argument is ignored in the filter construction), and
supplying neither issues the backend query with no filter at all. -/
theorem query_both_dates_range_precedence :
    (∀ (parse : String → Option String) (backend : Option String → StacResult)
        (processing_date d1 d2 : String),
      query_data_catalog parse backend (some processing_date) (some (d1, d2)) =
        query_data_catalog parse backend none (some (d1, d2))) ∧
    (∀ parse : String → Option String,
      build_query_filter parse none none = Except.ok none) ∧
    (∀ (parse : String → Option String) (backend : Option String → StacResult),
      query_data_catalog parse backend none none =
        validate_query_result (backend none)) := by
  refine ⟨?_, ?_, ?_⟩ <;> intros <;> rfl

/-- C6: for a date range both endpoints pass through the date normalizer
and the filter is exactly
`processing_datetime>='<start>' and processing_datetime<='<stop>'`; for
a single processing date it is exactly `processing_datetime='<date>'`. -/
theorem query_filter_format :
    (∀ (parse : String → Option String) (processing_date : Option String)
        (d1 d2 s1 s2 : String),
      parse d1 = some s1 → parse d2 = some s2 →
      build_query_filter parse processing_date (some (d1, d2)) =
        Except.ok (some ("processing_datetime>='" ++ s1 ++
          "' and processing_datetime<='" ++ s2 ++ "'"))) ∧
    (∀ (parse : String → Option String) (d s : String),
      parse d = some s →
      build_query_filter parse (some d) none =
        Except.ok (some ("processing_datetime='" ++ s ++ "'"))) := by
  constructor
  · intro parse processing_date d1 d2 s1 s2 h1 h2
    simp [build_query_filter, h1, h2]
  · intro parse d s h
    simp [build_query_filter, h]

/-- Witness for C6 at the spec's example inputs. -/
theorem query_filter_format_witness :
    build_query_filter iso_parse none (some ("2024-01-01", "2024-01-03")) =
      Except.ok (some "processing_datetime>='2024-01-01' and processing_datetime<='2024-01-03'") ∧
    build_query_filter iso_parse (some "2024-01-05") none =
      Except.ok (some "processing_datetime='2024-01-05'") := by
  constructor
  · rw [query_filter_format.1 iso_parse none "2024-01-01" "2024-01-03"
      "2024-01-01" "2024-01-03" rfl rfl]
    rfl
  · rw [query_filter_format.2 iso_parse "2024-01-05" "2024-01-05" rfl]
    rfl

/-- C5: sensor-set resolution passes `None` through, returns an
already-resolved `SensorSet` unchanged, resolves a string first by direct
keyword match in the global table, then via the collection group's
`sensor_set_mappings`, and raises an error naming the string when neither
resolves. -/
theorem find_sensor_set_resolution :
    (∀ (sensor_sets : List (String × SensorSet)) (cg : CollectionGroup),
      find_sensor_set sensor_sets cg SensorSetQuery.null = Except.ok none) ∧
    (∀ (sensor_sets : List (String × SensorSet)) (cg : CollectionGroup) (s : SensorSet),
      find_sensor_set sensor_sets cg (SensorSetQuery.obj s) = Except.ok (some s)) ∧
    (∀ (sensor_sets : List (String × SensorSet)) (cg : CollectionGroup) (q : String)
        (s : SensorSet),
      lookupSensorSet sensor_sets q = some s →
      find_sensor_set sensor_sets cg (SensorSetQuery.str q) = Except.ok (some s)) ∧
    (∀ (sensor_sets : List (String × SensorSet)) (cg : CollectionGroup) (q : String)
        (m : SensorSetMapping),
      lookupSensorSet sensor_sets q = none →
      lookupMapping cg.sensor_set_mappings q = some m →
      find_sensor_set sensor_sets cg (SensorSetQuery.str q) = Except.ok (some m.sensor_set)) ∧
    (∀ (sensor_sets : List (String × SensorSet)) (cg : CollectionGroup) (q : String),
      lookupSensorSet sensor_sets q = none →
      lookupMapping cg.sensor_set_mappings q = none →
      find_sensor_set sensor_sets cg (SensorSetQuery.str q) =
        Except.error ("Could not determine sensor set from string: \"" ++ q ++ "\"")) := by
  refine ⟨fun _ _ => rfl, fun _ _ _ => rfl, ?_, ?_, ?_⟩
  · intro sensor_sets cg q s h
    simp [find_sensor_set, h]
  · intro sensor_sets cg q m h1 h2
    simp [find_sensor_set, h1, h2]
  · intro sensor_sets cg q h1 h2
    simp [find_sensor_set, h1, h2]

/-- Witness for C5: a keyword hit in the global table, an alias hit in
the per-group mapping, and an unresolvable string. -/
theorem find_sensor_set_resolution_witness :
    (let cris : SensorSet := ⟨"cris_1", "CrIS-JPSS1", "cris"⟩
     let grp : CollectionGroup := ⟨"cris_all", "CRS1", [("CrIS-JPSS1", ⟨cris⟩)]⟩
     find_sensor_set [("cris_1", cris)] grp (SensorSetQuery.str "cris_1") =
        Except.ok (some cris) ∧
     find_sensor_set [("cris_1", cris)] grp (SensorSetQuery.str "CrIS-JPSS1") =
        Except.ok (some cris) ∧
     find_sensor_set [("cris_1", cris)] grp (SensorSetQuery.str "bogus") =
        Except.error "Could not determine sensor set from string: \"bogus\"") := by
  refine ⟨?_, ?_, ?_⟩
  · exact find_sensor_set_resolution.2.2.1 _ _ "cris_1" _ (by rfl)
  · exact find_sensor_set_resolution.2.2.2.1 _ _ "CrIS-JPSS1" ⟨⟨"cris_1", "CrIS-JPSS1", "cris"⟩⟩
      (by rfl) (by rfl)
  · have h := find_sensor_set_resolution.2.2.2.2
      [("cris_1", (⟨"cris_1", "CrIS-JPSS1", "cris"⟩ : SensorSet))]
      ⟨"cris_all", "CRS1", [("CrIS-JPSS1", ⟨⟨"cris_1", "CrIS-JPSS1", "cris"⟩⟩)]⟩
      "bogus" (by rfl) (by rfl)
    rw [h]
    rfl

/-- C1 counterexample: `register_daac_archiving` invoked with the commit
flag unset (`do_update = false`) but the delete flag set issues an
archive-config DELETE — a network mutation — contradicting the dry-run
invariant as stated. -/
theorem register_daac_archiving_dry_run_delete_counterexample :
    register_daac_archiving_calls ["TRPSDL2ALLCRS1"]
        ["URN:NASA:UNITY:unity:ops:TRPSDL2ALLCRS1___1"] false true ≠ [] ∧
    register_daac_archiving_calls ["TRPSDL2ALLCRS1"]
        ["URN:NASA:UNITY:unity:ops:TRPSDL2ALLCRS1___1"] false true =
      [MutationCall.archiveDelete "URN:NASA:UNITY:unity:ops:TRPSDL2ALLCRS1___1"] := by
  constructor
  · decide
  · rfl

/-- C1 (amended): with the commit flag unset, `register_collection_ids`,
`define_custom_metadata`, `add_archive_config` and `trigger_dag` issue no
network mutation, `register_daac_archiving` issues none when the delete
flag is unset, and with the delete flag set it issues exactly the
archive-config DELETE calls (one per collection id, in order) and no
create/PUT/POST; the dry-run `trigger_dag` still builds the same request
body as a committing run. -/
theorem dry_run_mutation_trace :
    (∀ ids : List String, register_collection_ids_calls false ids = []) ∧
    define_custom_metadata_calls false = [] ∧
    (∀ cid : String, add_archive_config_calls cid false = []) ∧
    (∀ (turl rid ld pa pw sj : String) (ue usa : Bool),
      (trigger_dag turl rid ld pa pw sj ue usa false).2 = []) ∧
    (∀ ns ids : List String, register_daac_archiving_calls ns ids false false = []) ∧
    (∀ ns ids : List String,
      register_daac_archiving_calls ns ids false true =
        (ns.zip ids).map (fun p => MutationCall.archiveDelete p.2)) ∧
    (∀ (turl rid ld pa pw sj : String) (ue usa : Bool),
      (trigger_dag turl rid ld pa pw sj ue usa false).1 =
        (trigger_dag turl rid ld pa pw sj ue usa true).1) := by
  refine ⟨fun _ => rfl, rfl, fun _ => rfl, fun _ _ _ _ _ _ _ _ => rfl, ?_, ?_,
    fun _ _ _ _ _ _ _ _ => rfl⟩
  · intro ns ids
    unfold register_daac_archiving_calls add_archive_config_calls
    simp [flatten_map_nil]
  · intro ns ids
    unfold register_daac_archiving_calls add_archive_config_calls delete_archive_config_calls
    simp [flatten_map_nil, flatten_map_singleton]

/-- C4: `get_constant_property` returns the shared value when every
feature that defines the property agrees on it (features lacking it are
skipped); it raises naming the offending feature id and the two
conflicting values on the first feature whose value differs from the
previously seen one; and when zero features define the property it raises
exactly when `required` and returns `None` otherwise. -/
theorem get_constant_property_spec :
    (∀ (prop_name v : String) (feats : List Feature) (required : Bool),
      (∀ f ∈ feats, lookupProp f.properties prop_name = none ∨
        lookupProp f.properties prop_name = some v) →
      (∃ f ∈ feats, lookupProp f.properties prop_name = some v) →
      get_constant_property (StacResult.mk (some feats)) prop_name required =
        Except.ok (some v)) ∧
    (∀ (prop_name v w : String) (pre post : List Feature) (f : Feature) (required : Bool),
      (∀ g ∈ pre, lookupProp g.properties prop_name = none ∨
        lookupProp g.properties prop_name = some v) →
      (∃ g ∈ pre, lookupProp g.properties prop_name = some v) →
      lookupProp f.properties prop_name = some w →
      v ≠ w →
      get_constant_property (StacResult.mk (some (pre ++ f :: post))) prop_name required =
        Except.error (prop_name ++ " does not have a consistent value " ++ w ++
          " for " ++ f.id ++ ", expected " ++ v)) ∧
    (∀ (prop_name : String) (feats : List Feature),
      (∀ f ∈ feats, lookupProp f.properties prop_name = none) →
      get_constant_property (StacResult.mk (some feats)) prop_name true =
        Except.error ("No datasets define the " ++ prop_name ++ " metadata") ∧
      get_constant_property (StacResult.mk (some feats)) prop_name false =
        Except.ok none) := by
  refine ⟨?_, ?_, ?_⟩
  · intro prop_name v feats required h hex
    have hloop := get_constant_property_loop_start prop_name v feats [] h hex
    rw [List.append_nil] at hloop
    simp [get_constant_property, hloop, get_constant_property_loop]
  · intro prop_name v w pre post f required h hex hf hvw
    have hloop := get_constant_property_loop_start prop_name v pre (f :: post) h hex
    simp only [get_constant_property_loop, hf, ne_eq, hvw, not_false_eq_true,
      if_pos, reduceIte] at hloop
    simp [get_constant_property, hloop]
  · intro prop_name feats h
    have hloop := get_constant_property_loop_skip prop_name feats none h
    constructor <;> simp [get_constant_property, hloop]

/-- Witness for C4: an agreeing pair of features, a disagreeing second
feature, and a feature list with no occurrence of the property. -/
theorem get_constant_property_spec_witness :
    get_constant_property
        (StacResult.mk (some [⟨"f1", [("species", "O3")], []⟩, ⟨"f2", [], []⟩]))
        "species" true = Except.ok (some "O3") ∧
    get_constant_property
        (StacResult.mk (some [⟨"f1", [("species", "O3")], []⟩,
          ⟨"f2", [("species", "CO")], []⟩]))
        "species" true =
      Except.error "species does not have a consistent value CO for f2, expected O3" ∧
    get_constant_property (StacResult.mk (some [⟨"f1", [("x", "1")], []⟩])) "species" true =
      Except.error "No datasets define the species metadata" ∧
    get_constant_property (StacResult.mk (some [⟨"f1", [("x", "1")], []⟩])) "species" false =
      Except.ok none := by
  refine ⟨?_, ?_, ?_, ?_⟩
  · exact get_constant_property_spec.1 "species" "O3"
      [⟨"f1", [("species", "O3")], []⟩, ⟨"f2", [], []⟩] true (by decide) (by decide)
  · have h := get_constant_property_spec.2.1 "species" "O3" "CO"
      [⟨"f1", [("species", "O3")], []⟩] [] ⟨"f2", [("species", "CO")], []⟩ true
      (by decide) (by decide) (by decide) (by decide)
    exact h
  · exact (get_constant_property_spec.2.2 "species" [⟨"f1", [("x", "1")], []⟩]
      (by decide)).1
  · exact (get_constant_property_spec.2.2 "species" [⟨"f1", [("x", "1")], []⟩]
      (by decide)).2

/-- C7 counterexample: `data_ingest` with an S3 input path that verifies
and a missing local CWL workflow template does fail with an error naming
the missing file path, but a network call — the S3 `list_objects` of
`_verify_s3_path` — has already been issued by then, so the failure is
not "before any network call". -/
theorem data_ingest_missing_cwl_counterexample :
    (data_ingest ⟨true, ["p/L2_Products/", "p/L2_Products_Lite/"]⟩ (fun _ => false)
        (fun _ => 200) (fun _ => "1.0") "https://airflow.example/api" "."
        "unity" "ops" "20240101" "cris_all" "s3://bucket/muses" "1" true).2 =
      Except.error
        "Could not find process CWL file: mdps-muses-data-ingest/process-unity-ops.cwl" ∧
    (data_ingest ⟨true, ["p/L2_Products/", "p/L2_Products_Lite/"]⟩ (fun _ => false)
        (fun _ => 200) (fun _ => "1.0") "https://airflow.example/api" "."
        "unity" "ops" "20240101" "cris_all" "s3://bucket/muses" "1" true).1 =
      [NetworkEvent.s3ListObjects "s3://bucket/muses/20240101/"] ∧
    (data_ingest ⟨true, ["p/L2_Products/", "p/L2_Products_Lite/"]⟩ (fun _ => false)
        (fun _ => 200) (fun _ => "1.0") "https://airflow.example/api" "."
        "unity" "ops" "20240101" "cris_all" "s3://bucket/muses" "1" true).1 ≠ [] := by
  refine ⟨rfl, rfl, ?_⟩
  decide

/-- The S3 verification always issues exactly its one `list_objects`
call. -/
theorem verify_s3_path_events (s3resp : S3Response) (base_path data_path : String) :
    (verify_s3_path s3resp base_path data_path).1 =
      [NetworkEvent.s3ListObjects
        (path_join base_path
          (if ends_with_slash data_path then data_path else data_path ++ "/"))] := rfl

/-- C7 (amended): with a verifiable S3 input path and a missing local CWL
workflow template, `data_ingest` fails with an error naming the missing
file path before any HTTP request — before the workflow-file GETs and
before the workflow-run POST, even when triggering was requested; the
only network call already issued is the S3 listing of the input data
path. -/
theorem data_ingest_missing_cwl_fails_before_http
    (s3resp : S3Response) (fileExists : String → Bool) (httpStatus : String → Nat)
    (extract_cwl_docker_version : String → String)
    (trigger_url deploy_base_dir project venue : String)
    (input_data_ingest_path collection_group_keyword input_data_base_path
      collection_version : String) (trigger : Bool)
    (hs3 : (verify_s3_path s3resp input_data_base_path input_data_ingest_path).2 =
      Except.ok ())
    (hmissing : fileExists
      (path_join deploy_base_dir
        (cwl_workflow_path "mdps-muses-data-ingest" project venue)) = false) :
    (data_ingest s3resp fileExists httpStatus extract_cwl_docker_version
        trigger_url deploy_base_dir project venue input_data_ingest_path
        collection_group_keyword input_data_base_path collection_version trigger).2 =
      Except.error ("Could not find process CWL file: " ++
        cwl_workflow_path "mdps-muses-data-ingest" project venue) ∧
    ∀ e ∈ (data_ingest s3resp fileExists httpStatus extract_cwl_docker_version
        trigger_url deploy_base_dir project venue input_data_ingest_path
        collection_group_keyword input_data_base_path collection_version trigger).1,
      ∃ u, e = NetworkEvent.s3ListObjects u := by
  have hev := verify_s3_path_events s3resp input_data_base_path input_data_ingest_path
  rcases hv : verify_s3_path s3resp input_data_base_path input_data_ingest_path
    with ⟨ev1, res⟩
  rw [hv] at hs3 hev
  simp only at hs3 hev
  subst hs3
  have hpw : process_workflow_url_fn fileExists httpStatus extract_cwl_docker_version
      deploy_base_dir project venue "mdps-muses-data-ingest" =
      ([], Except.error ("Could not find process CWL file: " ++
        cwl_workflow_path "mdps-muses-data-ingest" project venue)) := by
    unfold process_workflow_url_fn
    simp only [hmissing, Bool.not_false, if_pos]
  constructor
  · unfold data_ingest
    rw [hv, hpw]
  · unfold data_ingest
    rw [hv, hpw]
    simp only [List.append_nil]
    intro e he
    rw [hev] at he
    simp at he
    exact ⟨_, he⟩

/-- Witness for C7 at a concrete world: the S3 path verifies, the local
CWL file is absent. -/
theorem data_ingest_missing_cwl_witness :
    (data_ingest ⟨true, ["x/L2_Products/", "x/L2_Products_Lite/"]⟩ (fun _ => false)
        (fun _ => 200) (fun _ => "2.0") "t" "deploy" "u" "o" "d" "c" "s3://b" "1" false).2 =
      Except.error ("Could not find process CWL file: " ++
        cwl_workflow_path "mdps-muses-data-ingest" "u" "o") ∧
    ∀ e ∈ (data_ingest ⟨true, ["x/L2_Products/", "x/L2_Products_Lite/"]⟩ (fun _ => false)
        (fun _ => 200) (fun _ => "2.0") "t" "deploy" "u" "o" "d" "c" "s3://b" "1" false).1,
      ∃ u, e = NetworkEvent.s3ListObjects u :=
  data_ingest_missing_cwl_fails_before_http
    ⟨true, ["x/L2_Products/", "x/L2_Products_Lite/"]⟩ (fun _ => false)
    (fun _ => 200) (fun _ => "2.0") "t" "deploy" "u" "o" "d" "c" "s3://b" "1" false
    (by rfl) (by rfl)

/-- C8: at a concrete non-empty STAC result, delete-message emission
produces exactly one file per feature, named
`delete-<product_id>-<timestamp>.json` with the id derived from the
feature id and timestamp, but the document's keys are `product`,
`"identifier "` (with a trailing space, a slip in the source dict
literal), `collection`, `provider`, `version`, `submissionTime`: the
`identifier` key required by the DAAC delete-message format is absent. -/
theorem write_delete_message_identifier_key :
    write_delete_message ["COLL1"]
        [[⟨"COLL1:GRANULE1", [("short_name", "TRPSDL2ALLCRS1")], []⟩]]
        "1" "2024-01-01T00:00:00" "20240101T000000" =
      Except.ok [("delete-GRANULE1-20240101T000000.json",
        delete_message_doc "GRANULE1" "delete-GRANULE1-20240101T000000"
          "TRPSDL2ALLCRS1" "1" "2024-01-01T00:00:00")] ∧
    topLevelKeys (delete_message_doc "GRANULE1" "delete-GRANULE1-20240101T000000"
        "TRPSDL2ALLCRS1" "1" "2024-01-01T00:00:00") =
      ["product", "identifier ", "collection", "provider", "version", "submissionTime"] ∧
    "identifier" ∉ topLevelKeys (delete_message_doc "GRANULE1"
        "delete-GRANULE1-20240101T000000" "TRPSDL2ALLCRS1" "1" "2024-01-01T00:00:00") := by
  refine ⟨rfl, rfl, ?_⟩
  decide

end TropessDeploy
